import Mathlib

/-!
Verification of the vendor-invoice reconciliation and financial computation
engine (`vti_vendor_invoice`).  Python numbers are modelled as exact
rationals (`ℚ`), Python `round(x, 2)` as rounding of the exact rational to
an integer number of hundredths, dates as explicit Gregorian records, and
external effects (S3, database, rate API) as explicit parameters holding
the outcome the external call would produce.
-/

/-- Model of Python `round(x, 2)`: round the exact rational to a whole
number of hundredths (half rounded up; exact ties never arise in the
properties proved below, so the tie-breaking direction is immaterial). -/
def round2 (q : ℚ) : ℚ := (((q * 100 + 1 / 2).floor : ℤ) : ℚ) / 100

/- ============================================================
   Data model: one uninvoiced arrival (CAN) line, as produced by
   `get_uninvoiced_ans` in utils/invoice_data.py.  The combined
   "123.45 USD" cost string is modelled as its split parts: the numeric
   amount and the currency tag (`none` when the string has fewer than
   two space-separated parts).
   ============================================================ -/

structure CanLine where
  arrival_note_number : String
  po_number : String
  vendor_code : String
  legal_entity_code : String
  vendor_type : String
  payment_term : Option String
  product_purchase_order_id : Nat
  buying_unit_cost_amount : ℚ
  buying_unit_cost_currency : Option String
  uninvoiced_quantity : ℚ
  true_remaining_qty : Option ℚ
  vat_percent : ℚ
  po_line_is_over_delivered : String
  po_line_is_over_invoiced : String
  has_legacy_invoices : String
deriving DecidableEq, Repr

namespace InvoiceData

/-- Embeds the SQL expression
`GREATEST(0, LEAST(can.uninvoiced_quantity, can.po_line_pending_invoiced_qty))`
computed as `true_remaining_qty` in `get_uninvoiced_ans`
(utils/invoice_data.py). -/
def true_remaining_qty (uninvoiced_quantity po_line_pending_invoiced_qty : ℚ) : ℚ :=
  max 0 (min uninvoiced_quantity po_line_pending_invoiced_qty)

end InvoiceData

namespace InvoiceService

/-- Result record of `InvoiceService.calculate_invoice_totals_with_vat`
(utils/invoice_service.py).  The line/PO/AN count bookkeeping fields are
display-only and omitted. -/
structure VatTotals where
  subtotal : ℚ
  total_vat : ℚ
  total_with_vat : ℚ
  currency : String
deriving DecidableEq, Repr

/-- Loop body of `calculate_invoice_totals_with_vat`: a row takes part only
when its cost string has at least two parts (a currency tag); the quantity
is `row.get('true_remaining_qty', row['uninvoiced_quantity'])`; the first
currency tag seen is kept. -/
def vatTotalsStep (acc : ℚ × ℚ × Option String) (row : CanLine) : ℚ × ℚ × Option String :=
  match row.buying_unit_cost_currency with
  | none => acc
  | some tag =>
      let qty := row.true_remaining_qty.getD row.uninvoiced_quantity
      let line_amount := row.buying_unit_cost_amount * qty
      let vat_amount := line_amount * row.vat_percent / 100
      (acc.1 + line_amount, acc.2.1 + vat_amount, acc.2.2 <|> some tag)

/-- Embeds `InvoiceService.calculate_invoice_totals_with_vat`
(utils/invoice_service.py, lines 49-85): accumulate raw subtotal and VAT
over the rows, round once at the end, default currency "USD". -/
def calculate_invoice_totals_with_vat (df : List CanLine) : VatTotals :=
  let acc := df.foldl vatTotalsStep (0, 0, none)
  { subtotal := round2 acc.1
    total_vat := round2 acc.2.1
    total_with_vat := round2 (acc.1 + acc.2.1)
    currency := acc.2.2.getD "USD" }

end InvoiceService

namespace CurrencyUtils

/-- Result record of `get_invoice_amounts_in_currency`
(utils/currency_utils.py). -/
structure ConvertedAmounts where
  exchange_rate : ℚ
  subtotal : ℚ
  total_vat : ℚ
  total_with_vat : ℚ
  currency : String
deriving DecidableEq, Repr

/-- Loop body of `get_invoice_amounts_in_currency`: every row takes part
(the cost string parse keeps the numeric part either way), the quantity is
always the raw `uninvoiced_quantity`, and the converted line amount feeds
both the subtotal and the VAT sum. -/
def convertedStep (exchange_rate : ℚ) (acc : ℚ × ℚ) (row : CanLine) : ℚ × ℚ :=
  let line_amount := row.buying_unit_cost_amount * row.uninvoiced_quantity
  let line_amount_converted := line_amount * exchange_rate
  let vat_amount := line_amount_converted * row.vat_percent / 100
  (acc.1 + line_amount_converted, acc.2 + vat_amount)

/-- Embeds `get_invoice_amounts_in_currency`
(utils/currency_utils.py, lines 250-309).  `looked_up_rate` holds the
value `get_latest_exchange_rate(po_currency, invoice_currency)` would
return (an external cache/API/database effect); same-currency pairs use
rate 1.0 without a lookup, and a missing rate yields `none` instead of
amounts. -/
def get_invoice_amounts_in_currency (selected_df : List CanLine)
    (po_currency invoice_currency : String) (looked_up_rate : Option ℚ) :
    Option ConvertedAmounts :=
  let rate? : Option ℚ :=
    if po_currency = invoice_currency then some 1 else looked_up_rate
  match rate? with
  | none => none
  | some exchange_rate =>
      let acc := selected_df.foldl (convertedStep exchange_rate) (0, 0)
      some { exchange_rate := exchange_rate
             subtotal := round2 acc.1
             total_vat := round2 acc.2
             total_with_vat := round2 (acc.1 + acc.2)
             currency := invoice_currency }

/-- The rate dictionary built by `calculate_exchange_rates`
(utils/currency_utils.py): both entries may be unavailable. -/
structure ExchangeRates where
  usd_exchange_rate : Option ℚ
  po_to_invoice_rate : Option ℚ
deriving DecidableEq, Repr

/-- Warnings issued by `validate_exchange_rates`; payloads mirror the
formatted message arguments. -/
inductive RateWarning
  | cannotConvert (po_currency invoice_currency : String)
  | usdRateMissing (invoice_currency : String)
deriving DecidableEq, Repr

/-- First check of `validate_exchange_rates`: starting from
`(is_valid, warnings) = (True, [])`, flag a blocking failure when the
currencies differ and no po→invoice rate was found. -/
def rateCheckPoStep (rates : ExchangeRates)
    (po_currency invoice_currency : String) : Bool × List RateWarning :=
  if po_currency ≠ invoice_currency ∧ rates.po_to_invoice_rate = none then
    (false, [RateWarning.cannotConvert po_currency invoice_currency])
  else (true, [])

/-- Embeds `validate_exchange_rates` (utils/currency_utils.py, lines
205-228): blocking (`is_valid = false`) exactly when the currencies differ
and no po→invoice rate was found; a missing USD reporting rate only adds a
warning and never touches `is_valid`. -/
def validate_exchange_rates (rates : ExchangeRates)
    (po_currency invoice_currency : String) : Bool × List RateWarning :=
  if invoice_currency ≠ "USD" ∧ rates.usd_exchange_rate = none then
    ((rateCheckPoStep rates po_currency invoice_currency).1,
      (rateCheckPoStep rates po_currency invoice_currency).2
        ++ [RateWarning.usdRateMissing invoice_currency])
  else rateCheckPoStep rates po_currency invoice_currency

end CurrencyUtils

namespace InvoiceService

/-- One row of the PO-line summary DataFrame returned by
`get_po_line_summary` (utils/invoice_data.py): the SQL computes
`po_remaining_qty = purchase_quantity - (legacy + new invoiced)`.
`po_remaining_qty` is `Option` because `validate_invoice_with_po_level`
reads it with `po_row.get('po_remaining_qty', float('inf'))`: an absent
value never triggers the ceiling check. -/
structure PoSummaryRow where
  product_purchase_order_id : Nat
  po_number : String
  pt_code : String
  po_remaining_qty : Option ℚ
  legacy_invoice_qty : ℚ
deriving DecidableEq, Repr

/-- Blocking errors of `validate_invoice_with_po_level`; payloads mirror
the formatted message arguments. -/
inductive ValError
  | noItems
  | multipleVendors
  | multipleEntities
  | mixedVendorTypes
  | exceedsPoRemaining (po_number pt_code : String)
deriving DecidableEq, Repr

/-- Non-blocking warnings of `validate_invoice_with_po_level`. -/
inductive ValWarning
  | legacyInvoices (po_number pt_code : String)
  | over90Percent (po_number pt_code : String)
  | multiplePaymentTerms
  | multipleVatRates
  | overDelivered (count : Nat)
  | overInvoiced (count : Nat)
  | hasLegacyFlag (count : Nat)
deriving DecidableEq, Repr

/-- Result of `validate_invoice_with_po_level`: the `validation_results`
flags plus the `messages` content. -/
structure ValidationResult where
  can_invoice : Bool
  error : Option ValError
  warnings : List ValWarning
deriving DecidableEq, Repr

/-- Distinct values in first-occurrence order, as pandas `unique()`
returns them. -/
def uniqueInOrder : List Nat → List Nat
  | [] => []
  | x :: xs => x :: uniqueInOrder (xs.filter (fun y => y ≠ x))
termination_by l => l.length
decreasing_by
  simp only [List.length_cons]
  exact Nat.lt_succ_of_le (List.length_filter_le _ _)

/-- First summary row for a PO line id: `po_summary[po_summary[...] == po_id]`
followed by `.iloc[0]`, skipping ids with no row. -/
def lookupPoSummary (summary : List PoSummaryRow) (po_id : Nat) : Option PoSummaryRow :=
  (summary.filter (fun row => row.product_purchase_order_id = po_id)).head?

/-- Selected quantity for one PO line:
`df[df['product_purchase_order_id'] == po_id]['uninvoiced_quantity'].sum()`. -/
def totalSelectedFor (df : List CanLine) (po_id : Nat) : ℚ :=
  ((df.filter (fun r => r.product_purchase_order_id = po_id)).map
    (fun r => r.uninvoiced_quantity)).sum

/-- The PO-level loop of `validate_invoice_with_po_level`
(utils/invoice_service.py, lines 217-245): walk the distinct PO line ids,
return a ceiling-breach error as soon as the selected quantity strictly
exceeds `po_remaining_qty * 1.1`, otherwise accumulate legacy and >90%
warnings. -/
def poLevelLoop (df : List CanLine) (summary : List PoSummaryRow) :
    List Nat → List ValWarning → Option ValError × List ValWarning
  | [], ws => (none, ws)
  | po_id :: rest, ws =>
      match lookupPoSummary summary po_id with
      | none => poLevelLoop df summary rest ws
      | some po_row =>
          let total_selected := totalSelectedFor df po_id
          let breach :=
            match po_row.po_remaining_qty with
            | none => false
            | some remaining_qty => decide (total_selected > remaining_qty * (11 / 10))
          if breach then
            (some (ValError.exceedsPoRemaining po_row.po_number po_row.pt_code), ws)
          else
            let ws :=
              if po_row.legacy_invoice_qty > 0 then
                ws ++ [ValWarning.legacyInvoices po_row.po_number po_row.pt_code]
              else ws
            let ws :=
              match po_row.po_remaining_qty with
              | none => ws
              | some remaining_qty =>
                  if total_selected > remaining_qty * (9 / 10) then
                    ws ++ [ValWarning.over90Percent po_row.po_number po_row.pt_code]
                  else ws
            poLevelLoop df summary rest ws

/-- Embeds `InvoiceService.validate_invoice_with_po_level`
(utils/invoice_service.py, lines 163-293).  `summary` holds what
`get_po_line_summary` would return for the selection's PO line ids.  The
basic single-vendor / single-entity / single-type checks return early;
then the PO-level ceiling loop; then the informational warnings. -/
def validate_invoice_with_po_level (df : List CanLine)
    (summary : List PoSummaryRow) : ValidationResult :=
  if df.isEmpty then
    { can_invoice := false, error := some ValError.noItems, warnings := [] }
  else if ((df.map (fun r => r.vendor_code)).dedup).length > 1 then
    { can_invoice := false, error := some ValError.multipleVendors, warnings := [] }
  else if ((df.map (fun r => r.legal_entity_code)).dedup).length > 1 then
    { can_invoice := false, error := some ValError.multipleEntities, warnings := [] }
  else if ((df.map (fun r => r.vendor_type)).dedup).length > 1 then
    { can_invoice := false, error := some ValError.mixedVendorTypes, warnings := [] }
  else
    let po_line_ids := uniqueInOrder (df.map (fun r => r.product_purchase_order_id))
    match poLevelLoop df summary po_line_ids [] with
    | (some e, ws) => { can_invoice := false, error := some e, warnings := ws }
    | (none, ws) =>
        let ws :=
          if ((df.filterMap (fun r => r.payment_term)).dedup).length > 1 then
            ws ++ [ValWarning.multiplePaymentTerms]
          else ws
        let ws :=
          if ((df.map (fun r => r.vat_percent)).dedup).length > 1 then
            ws ++ [ValWarning.multipleVatRates]
          else ws
        let over_delivered := df.filter (fun r => r.po_line_is_over_delivered = "Y")
        let ws :=
          if over_delivered.isEmpty then ws
          else ws ++ [ValWarning.overDelivered over_delivered.length]
        let over_invoiced := df.filter (fun r => r.po_line_is_over_invoiced = "Y")
        let ws :=
          if over_invoiced.isEmpty then ws
          else ws ++ [ValWarning.overInvoiced over_invoiced.length]
        let has_legacy := df.filter (fun r => r.has_legacy_invoices = "Y")
        let ws :=
          if has_legacy.isEmpty then ws
          else ws ++ [ValWarning.hasLegacyFlag has_legacy.length]
        { can_invoice := true, error := none, warnings := ws }

end InvoiceService

namespace S3Utils

/-- One file handed to `batch_upload_invoice_files` together with the
outcome its `upload_invoice_file` call would produce (S3 is external):
`upload_invoice_file` returns `(True, s3_key)` on success and
`(False, error_message)` on a caught exception. -/
structure FileUpload where
  filename : String
  upload_ok : Bool
  result : String
deriving DecidableEq, Repr

/-- The result dictionary of `S3Manager.batch_upload_invoice_files`
(utils/s3_utils.py, lines 638-701). -/
structure BatchResult where
  success : Bool
  uploaded : List String
  failed : List (String × String)
  total : Nat
  success_count : Nat
  error_count : Nat
deriving DecidableEq, Repr

/-- Loop body of `batch_upload_invoice_files`: a successful upload appends
its key and bumps `success_count`; a failed one appends
`(filename, error)` and bumps `error_count`. -/
def batchStep (r : BatchResult) (f : FileUpload) : BatchResult :=
  if f.upload_ok then
    { r with uploaded := r.uploaded ++ [f.result],
             success_count := r.success_count + 1 }
  else
    { r with failed := r.failed ++ [(f.filename, f.result)],
             error_count := r.error_count + 1 }

/-- Embeds `S3Manager.batch_upload_invoice_files`
(utils/s3_utils.py, lines 638-701): the result starts with
`success = False` and `total = len(files)`, an empty batch returns
immediately with `success = True`, otherwise every file is processed and
finally `success = (error_count == 0)`. -/
def batch_upload_invoice_files (files : List FileUpload) : BatchResult :=
  let results : BatchResult :=
    { success := false, uploaded := [], failed := [],
      total := files.length, success_count := 0, error_count := 0 }
  if files.isEmpty then
    { results with success := true }
  else
    let r := files.foldl batchStep results
    { r with success := r.error_count == 0 }

end S3Utils

namespace CreateInvoicePage

/-- Observable outcome of one run of `create_invoice_final`
(pages/1_Create_Invoice.py, lines 1389-1520).  `media_records_created`
counts rows `save_media_records` inserted and kept;
`invoice_insert_attempted` records whether `create_purchase_invoice` (the
header/detail insert) was called at all; `cleaned_up_keys` are the S3
objects deleted by `cleanup_failed_uploads`. -/
structure CreateOutcome where
  s3_keys_uploaded : List String
  media_records_created : Nat
  invoice_insert_attempted : Bool
  invoice_created : Bool
  cleaned_up_keys : List String
deriving DecidableEq, Repr

/-- Embeds the control flow of `create_invoice_final`
(pages/1_Create_Invoice.py, lines 1389-1520) after the duplicate-submission
guard, with the external outcomes as parameters: `files` carries each
attachment with its would-be S3 upload outcome, `media_ok`/`media_ids`
what `save_media_records` would return, and `invoice_ok` whether
`create_purchase_invoice` would succeed.
Step 1 aborts before any database call when the batch upload is not an
overall success; step 2 aborts (deleting the uploaded S3 files) when media
record creation fails; step 3 inserts the invoice and cleans up uploads on
failure. -/
def create_invoice_final (files : List S3Utils.FileUpload)
    (media_ok : Bool) (media_ids : List Nat) (invoice_ok : Bool) :
    CreateOutcome :=
  -- Step 1: upload attachments, if any
  let upload_results := S3Utils.batch_upload_invoice_files files
  if files ≠ [] ∧ upload_results.success = false then
    { s3_keys_uploaded := [], media_records_created := 0,
      invoice_insert_attempted := false, invoice_created := false,
      cleaned_up_keys := [] }
  else
    let s3_keys_uploaded := if files = [] then [] else upload_results.uploaded
    -- Step 2: create media records for the uploaded files
    if s3_keys_uploaded ≠ [] ∧ media_ok = false then
      { s3_keys_uploaded := s3_keys_uploaded, media_records_created := 0,
        invoice_insert_attempted := false, invoice_created := false,
        cleaned_up_keys := s3_keys_uploaded }
    else
      let media_ids_created := if s3_keys_uploaded = [] then [] else media_ids
      -- Step 3: insert invoice header and details
      if invoice_ok then
        { s3_keys_uploaded := s3_keys_uploaded,
          media_records_created := media_ids_created.length,
          invoice_insert_attempted := true, invoice_created := true,
          cleaned_up_keys := [] }
      else
        { s3_keys_uploaded := s3_keys_uploaded,
          media_records_created := media_ids_created.length,
          invoice_insert_attempted := true, invoice_created := false,
          cleaned_up_keys := s3_keys_uploaded }

end CreateInvoicePage

/- ============================================================
   String machinery shared by the payment-term parser and the filename
   sanitizer: ASCII case mapping, Python substring containment, and
   direct scanners for the handful of regular expressions the source
   uses.  All inputs are ASCII term labels / filenames.
   ============================================================ -/

/-- ASCII model of Python `str.upper()` on one character: codes 97-122
are `'a'`-`'z'`, mapped 32 down onto `'A'`-`'Z'`. -/
def upChar (c : Char) : Char :=
  if 97 ≤ c.toNat ∧ c.toNat ≤ 122 then Char.ofNat (c.toNat - 32) else c

/-- ASCII model of Python `str.lower()` on one character: codes 65-90 are
`'A'`-`'Z'`, mapped 32 up onto `'a'`-`'z'`. -/
def lowChar (c : Char) : Char :=
  if 65 ≤ c.toNat ∧ c.toNat ≤ 90 then Char.ofNat (c.toNat + 32) else c

/-- Characters matched by Python regex `\s` on ASCII input. -/
def isSpaceC (c : Char) : Bool :=
  c == ' ' || c == '\t' || c == '\n' || c == '\r' || c == '\x0b' || c == '\x0c'

/-- Does `hay` start with `needle`? -/
def startsWithL : List Char → List Char → Bool
  | _, [] => true
  | [], _ :: _ => false
  | c :: cs, n :: ns => c == n && startsWithL cs ns

/-- Python substring containment `needle in hay` (contiguous occurrence). -/
def containsL : List Char → List Char → Bool
  | [], needle => needle.isEmpty
  | l@(_ :: t), needle => startsWithL l needle || containsL t needle

/-- Uppercased character list of a string, Python `str(x).upper()`. -/
def upperData (s : String) : List Char := s.data.map upChar

/-- Python `str.strip()` on ASCII input. -/
def stripL (l : List Char) : List Char :=
  ((l.dropWhile isSpaceC).reverse.dropWhile isSpaceC).reverse

/-- Value of a digit run, as Python `int()` of the matched group. -/
def natFromDigits (ds : List Char) : Nat :=
  ds.foldl (fun n c => 10 * n + (c.toNat - '0'.toNat)) 0

/-- Leftmost-match search: try the pattern at every start position from
the left, as `re.search` does.  Each `tryAt` below needs at least one
character, so the end-of-string position never matches. -/
def searchFirst (tryAt : List Char → Option Nat) : List Char → Option Nat
  | [] => none
  | l@(_ :: t) =>
      match tryAt l with
      | some n => some n
      | none => searchFirst tryAt t

/-- Match of `NET\s+(\d+)\s*DAYS?` at the start of the list (the greedy
runs never need backtracking because `\s`, `\d` and `D` are disjoint). -/
def tryNetDaysAt : List Char → Option Nat
  | 'N' :: 'E' :: 'T' :: r0 =>
      let ws := r0.takeWhile isSpaceC
      let r1 := r0.dropWhile isSpaceC
      if ws.isEmpty then none
      else
        let ds := r1.takeWhile Char.isDigit
        let r2 := r1.dropWhile Char.isDigit
        if ds.isEmpty then none
        else
          match r2.dropWhile isSpaceC with
          | 'D' :: 'A' :: 'Y' :: _ => some (natFromDigits ds)
          | _ => none
  | _ => none

/-- Match of `NET\s+(\d+)` at the start of the list. -/
def tryNetAt : List Char → Option Nat
  | 'N' :: 'E' :: 'T' :: r0 =>
      let ws := r0.takeWhile isSpaceC
      let r1 := r0.dropWhile isSpaceC
      if ws.isEmpty then none
      else
        let ds := r1.takeWhile Char.isDigit
        if ds.isEmpty then none else some (natFromDigits ds)
  | _ => none

/-- Match of `AMS\s+(\d+)\s*DAYS?` at the start of the list. -/
def tryAmsDaysAt : List Char → Option Nat
  | 'A' :: 'M' :: 'S' :: r0 =>
      let ws := r0.takeWhile isSpaceC
      let r1 := r0.dropWhile isSpaceC
      if ws.isEmpty then none
      else
        let ds := r1.takeWhile Char.isDigit
        let r2 := r1.dropWhile Char.isDigit
        if ds.isEmpty then none
        else
          match r2.dropWhile isSpaceC with
          | 'D' :: 'A' :: 'Y' :: _ => some (natFromDigits ds)
          | _ => none
  | _ => none

/-- Match of `AMS\s+(\d+)` at the start of the list. -/
def tryAmsAt : List Char → Option Nat
  | 'A' :: 'M' :: 'S' :: r0 =>
      let ws := r0.takeWhile isSpaceC
      let r1 := r0.dropWhile isSpaceC
      if ws.isEmpty then none
      else
        let ds := r1.takeWhile Char.isDigit
        if ds.isEmpty then none else some (natFromDigits ds)
  | _ => none

/-- Match of `(\d+)\s*DAYS?` at the start of the list. -/
def tryDaysAt (l : List Char) : Option Nat :=
  let ds := l.takeWhile Char.isDigit
  let r1 := l.dropWhile Char.isDigit
  if ds.isEmpty then none
  else
    match r1.dropWhile isSpaceC with
    | 'D' :: 'A' :: 'Y' :: _ => some (natFromDigits ds)
    | _ => none

/-- Match of `(\d+)` at the start of the list. -/
def tryNumAt (l : List Char) : Option Nat :=
  let ds := l.takeWhile Char.isDigit
  if ds.isEmpty then none else some (natFromDigits ds)

/-- Match of `EOM\s*(\d+)` at the start of the list. -/
def tryEomAt : List Char → Option Nat
  | 'E' :: 'O' :: 'M' :: r0 =>
      let ds := (r0.dropWhile isSpaceC).takeWhile Char.isDigit
      if ds.isEmpty then none else some (natFromDigits ds)
  | _ => none

/-- Match of `NET\s+(\d+)\s*DAYS?` at the start of the list together with
the number of characters the whole match consumes (the optional `S` is
taken greedily, as the regex engine does). -/
def tryNetDaysFullAt : List Char → Option (Nat × Nat)
  | 'N' :: 'E' :: 'T' :: r0 =>
      let ws := r0.takeWhile isSpaceC
      let r1 := r0.dropWhile isSpaceC
      if ws.isEmpty then none
      else
        let ds := r1.takeWhile Char.isDigit
        let r2 := r1.dropWhile Char.isDigit
        if ds.isEmpty then none
        else
          let ws2 := r2.takeWhile isSpaceC
          match r2.dropWhile isSpaceC with
          | 'D' :: 'A' :: 'Y' :: 'S' :: _ =>
              some (natFromDigits ds, 3 + ws.length + ds.length + ws2.length + 4)
          | 'D' :: 'A' :: 'Y' :: _ =>
              some (natFromDigits ds, 3 + ws.length + ds.length + ws2.length + 3)
          | _ => none
  | _ => none

/-- Python `re.findall(r'NET\s+(\d+)\s*DAYS?', text)`: non-overlapping
matches scanned from the left, continuing after each match. -/
def findAllNetDaysAux : Nat → List Char → List Nat
  | 0, _ => []
  | _, [] => []
  | fuel + 1, c :: t =>
      match tryNetDaysFullAt (c :: t) with
      | some (n, k) => n :: findAllNetDaysAux fuel ((c :: t).drop (max k 1))
      | none => findAllNetDaysAux fuel t

/-- All matches of the list, scanned left to right; the fuel of the
auxiliary scan only bounds the number of steps, and every step consumes at
least one character, so fuel equal to the list length never runs out. -/
def findAllNetDays (l : List Char) : List Nat :=
  findAllNetDaysAux l.length l

/- ============================================================
   Gregorian dates, modelling Python `datetime.date` plus
   `timedelta(days=n)` for the nonnegative day counts this code adds.
   ============================================================ -/

structure PyDate where
  year : Nat
  month : Nat
  day : Nat
deriving DecidableEq, Repr

def isLeapYear (y : Nat) : Bool :=
  (y % 4 == 0 && y % 100 != 0) || y % 400 == 0

def daysInMonth (y m : Nat) : Nat :=
  if m = 2 then (if isLeapYear y then 29 else 28)
  else if m = 4 ∨ m = 6 ∨ m = 9 ∨ m = 11 then 30
  else 31

/-- The calendar day after `d`. -/
def nextDay (d : PyDate) : PyDate :=
  if d.day < daysInMonth d.year d.month then ⟨d.year, d.month, d.day + 1⟩
  else if d.month < 12 then ⟨d.year, d.month + 1, 1⟩
  else ⟨d.year + 1, 1, 1⟩

/-- Python `d + timedelta(days=n)` for a nonnegative day count. -/
def addDays (d : PyDate) (n : Nat) : PyDate := Nat.iterate nextDay n d

namespace PaymentTerms

/-- The categories of `PaymentTermCategory`
(utils/payment_terms_calculator.py). -/
inductive PaymentTermCategory
  | net_days
  | ams_days
  | advance
  | after_event
  | split_payment
  | special_date
  | other
deriving DecidableEq, Repr

/-- First check of `categorize_payment_term`:
`'%' in term_name or (':' in term_name and term_name.count(':') >= 1)`,
on the original (uncased) label; the count clause is redundant. -/
def hasSplitMarker (term_name : String) : Bool :=
  containsL term_name.data ['%'] || containsL term_name.data [':']

/-- Second check: `'NET' in term_upper and 'DAYS' in term_upper`. -/
def mentionsNetDays (term_name : String) : Bool :=
  containsL (upperData term_name) "NET".data &&
    containsL (upperData term_name) "DAYS".data

/-- Third check: `'AMS' in term_upper`. -/
def mentionsAms (term_name : String) : Bool :=
  containsL (upperData term_name) "AMS".data

/-- Fourth check: any of `ADVANCE`, `COD`, `CIA`, `PREPAID` in the
uppercased label. -/
def mentionsAdvanceKeyword (term_name : String) : Bool :=
  ["ADVANCE", "COD", "CIA", "PREPAID"].any
    (fun kw => containsL (upperData term_name) kw.data)

/-- Fifth check: any of `25TH`, `EOM`, `MOA`, `END OF MONTH`. -/
def mentionsSpecialDateKeyword (term_name : String) : Bool :=
  ["25TH", "EOM", "MOA", "END OF MONTH"].any
    (fun kw => containsL (upperData term_name) kw.data)

/-- Sixth check: any of `AFTER`, `BEFORE`, `UPON`. -/
def mentionsEventKeyword (term_name : String) : Bool :=
  ["AFTER", "BEFORE", "UPON"].any
    (fun kw => containsL (upperData term_name) kw.data)

/-- Embeds `PaymentTermParser.categorize_payment_term`
(utils/payment_terms_calculator.py, lines 29-73); the `description`
argument of the source is unused there and omitted.  Priority order as in
the source. -/
def categorize_payment_term (term_name : String) : PaymentTermCategory :=
  if hasSplitMarker term_name then .split_payment
  else if mentionsNetDays term_name then .net_days
  else if mentionsAms term_name then .ams_days
  else if mentionsAdvanceKeyword term_name then .advance
  else if mentionsSpecialDateKeyword term_name then .special_date
  else if mentionsEventKeyword term_name then .after_event
  else .other

/-- Embeds `extract_days_from_net_term`: leftmost match of
`NET\s+(\d+)\s*DAYS?` on the uppercased label. -/
def extract_days_from_net_term (term_name : String) : Option Nat :=
  searchFirst tryNetDaysAt (upperData term_name)

/-- Embeds `extract_days_from_ams_term`: leftmost match of
`AMS\s+(\d+)\s*DAYS?` on the uppercased label. -/
def extract_days_from_ams_term (term_name : String) : Option Nat :=
  searchFirst tryAmsDaysAt (upperData term_name)

/-- Embeds `PaymentTermParser.calculate_ams_due_date`
(utils/payment_terms_calculator.py, lines 122-143): first day of the next
month (rolling December into January of the next year), plus the days. -/
def calculate_ams_due_date (invoice_date : PyDate) (days : Nat) : PyDate :=
  let first_of_next_month : PyDate :=
    if invoice_date.month = 12 then ⟨invoice_date.year + 1, 1, 1⟩
    else ⟨invoice_date.year, invoice_date.month + 1, 1⟩
  addDays first_of_next_month days

/-- Embeds `extract_final_payment_days`: all matches of
`NET\s+(\d+)\s*DAYS?` over `f"{term_name} {description}".upper()`, keeping
the last one. -/
def extract_final_payment_days (term_name description : String) : Option Nat :=
  (findAllNetDays (upperData (term_name ++ " " ++ description))).getLast?

/-- Last day of the invoice month as computed inside the EOM branch of
`calculate_due_date`: December 31 directly, otherwise the first of the
next month minus one day. -/
def lastDayOfInvoiceMonth (invoice_date : PyDate) : PyDate :=
  if invoice_date.month = 12 then ⟨invoice_date.year, 12, 31⟩
  else ⟨invoice_date.year, invoice_date.month,
        daysInMonth invoice_date.year invoice_date.month⟩

/-- Embeds `PaymentTermParser.calculate_due_date`
(utils/payment_terms_calculator.py, lines 167-283), returning the pair
`(due_date, needs_manual_review)`; the human-readable explanation string
is display-only and omitted. -/
def calculate_due_date (term_name : String) (invoice_date : PyDate)
    (description : String) : Option PyDate × Bool :=
  match categorize_payment_term term_name with
  | .net_days =>
      match extract_days_from_net_term term_name with
      | some days => (some (addDays invoice_date days), false)
      | none => (none, true)
  | .ams_days =>
      match extract_days_from_ams_term term_name with
      | some days => (some (calculate_ams_due_date invoice_date days), false)
      | none => (none, true)
  | .advance => (some invoice_date, false)
  | .split_payment =>
      match extract_final_payment_days term_name description with
      | some final_days => (some (addDays invoice_date final_days), true)
      | none => (some (addDays invoice_date 30), true)
  | .special_date =>
      let tu := upperData term_name
      if containsL tu "25TH".data then
        (some (if invoice_date.day ≤ 25 then
                 ⟨invoice_date.year, invoice_date.month, 25⟩
               else if invoice_date.month = 12 then
                 ⟨invoice_date.year + 1, 1, 25⟩
               else ⟨invoice_date.year, invoice_date.month + 1, 25⟩), true)
      else if containsL tu "EOM".data then
        match searchFirst tryEomAt tu with
        | some days => (some (addDays (lastDayOfInvoiceMonth invoice_date) days), true)
        | none => (none, true)
      else if containsL tu "MOA".data then
        match searchFirst tryNumAt term_name.data with
        | some days => (some (addDays invoice_date days), true)
        | none => (none, true)
      else (none, true)
  | .after_event => (some (addDays invoice_date 30), true)
  | .other => (some (addDays invoice_date 30), true)

/-- Embeds the backward-compatibility accessor
`calculate_days_from_term_name` of utils/payment_terms_calculator.py
(lines 286-314): category dispatch with the AMS `+15` approximation. -/
def calculate_days_from_term_name (term_name : String) : Nat :=
  match categorize_payment_term term_name with
  | .net_days => (extract_days_from_net_term term_name).getD 30
  | .ams_days =>
      match extract_days_from_ams_term term_name with
      | some days => days + 15
      | none => 30
  | .advance => 0
  | .split_payment => (extract_final_payment_days term_name "").getD 30
  | _ => 30

end PaymentTerms

namespace InvoiceData

/-- Embeds `calculate_days_from_term_name` of utils/invoice_data.py
(lines 650-690): a keyword/regex cascade over the stripped label —
immediate-payment keywords, then `NET\s+(\d+)`, then `AMS\s+(\d+)` plus
15, then `(\d+)\s*DAYS?`, then any number, defaulting to 30. -/
def calculate_days_from_term_name (term_name : String) : Nat :=
  let stripped := stripL term_name.data
  let term_upper := stripped.map upChar
  if ["COD", "CIA", "TT IN ADVANCE", "ADVANCE", "PREPAID"].any
      (fun kw => containsL term_upper kw.data) then 0
  else
    match searchFirst tryNetAt term_upper with
    | some n => n
    | none =>
        match searchFirst tryAmsAt term_upper with
        | some n => n + 15
        | none =>
            match searchFirst tryDaysAt term_upper with
            | some n => n
            | none =>
                match searchFirst tryNumAt stripped with
                | some n => n
                | none => 30

end InvoiceData

namespace InvoiceAttachments

/-- Characters kept by the sanitizer: the class `[a-zA-Z0-9._\-]` of
`re.sub(r'[^a-zA-Z0-9._\-]', '', ...)`, written with the ASCII codes of
`a`-`z` (97-122), `A`-`Z` (65-90) and `0`-`9` (48-57). -/
def isKeptChar (c : Char) : Bool :=
  (97 ≤ c.toNat && c.toNat ≤ 122) || (65 ≤ c.toNat && c.toNat ≤ 90) ||
    (48 ≤ c.toNat && c.toNat ≤ 57) || c == '.' || c == '_' || c == '-'

/-- The character class `[a-z0-9._-]` that the specification promises for
sanitized filenames. -/
def isSpecSanChar (c : Char) : Bool :=
  (97 ≤ c.toNat && c.toNat ≤ 122) || (48 ≤ c.toNat && c.toNat ≤ 57) ||
    c == '.' || c == '_' || c == '-'

/-- Python `sanitized.rsplit('.', 1)` when it yields two parts: the text
before the last dot and the text after it; `none` when the list holds no
dot. -/
def splitAtLastDot (l : List Char) : Option (List Char × List Char) :=
  let r := l.reverse
  match r.dropWhile (fun c => c ≠ '.') with
  | '.' :: nameRev => some (nameRev.reverse, (r.takeWhile (fun c => c ≠ '.')).reverse)
  | _ => none

/-- Embeds `sanitize_filename` (utils/invoice_attachments.py, lines
154-181): replace spaces with underscores, drop characters outside
`[a-zA-Z0-9._-]`, lowercase, and when the result splits at a final dot,
truncate the part before it to 100 characters. -/
def sanitize_filename (filename : String) : String :=
  let s1 := filename.data.map (fun c => if c = ' ' then '_' else c)
  let s2 := s1.filter isKeptChar
  let s3 := s2.map lowChar
  match splitAtLastDot s3 with
  | none => String.mk s3
  | some (nm, ext) =>
      let nm2 := if nm.length > 100 then nm.take 100 else nm
      String.mk (nm2 ++ '.' :: ext)

/-- Embeds `generate_s3_key` (utils/invoice_attachments.py, lines
183-197) with the millisecond timestamp as an explicit parameter:
`f"{S3_FOLDER_PREFIX}{timestamp}_{filename}"` with the folder constant
`"purchase-invoice-file/"`. -/
def generate_s3_key (filename : String) (timestamp : Nat) : String :=
  "purchase-invoice-file/" ++ toString timestamp ++ "_" ++ filename

end InvoiceAttachments

namespace InvoiceService

/-- Quantity used by the totals-with-VAT calculation:
`row.get('true_remaining_qty', row['uninvoiced_quantity'])`. -/
def effectiveQty (r : CanLine) : ℚ :=
  r.true_remaining_qty.getD r.uninvoiced_quantity

/-- The ceiling condition of the PO-level loop for one PO line id: a
summary row exists, carries a remaining quantity, and the selected
quantity strictly exceeds `remaining * 1.1`. -/
def ceilingBreached (df : List CanLine) (summary : List PoSummaryRow)
    (po_id : Nat) : Bool :=
  match lookupPoSummary summary po_id with
  | none => false
  | some po_row =>
      match po_row.po_remaining_qty with
      | none => false
      | some remaining_qty =>
          decide (totalSelectedFor df po_id > remaining_qty * (11 / 10))

/-- Is this error the ceiling-breach error? -/
def isCeilingError : Option ValError → Bool
  | some (ValError.exceedsPoRemaining _ _) => true
  | _ => false

end InvoiceService

/- ============================================================
   Concrete fixtures used by counterexamples and witnesses.
   ============================================================ -/

/-- An arrival line whose PO-level-capped quantity (1) is smaller than its
raw uninvoiced quantity (2): cost string "10 USD", no VAT. -/
def adjustedLine : CanLine :=
  { arrival_note_number := "AN-1"
    po_number := "PO-1"
    vendor_code := "V1"
    legal_entity_code := "LE1"
    vendor_type := "External"
    payment_term := some "NET 30 DAYS"
    product_purchase_order_id := 1
    buying_unit_cost_amount := 10
    buying_unit_cost_currency := some "USD"
    uninvoiced_quantity := 2
    true_remaining_qty := some 1
    vat_percent := 0
    po_line_is_over_delivered := "N"
    po_line_is_over_invoiced := "N"
    has_legacy_invoices := "N" }

/-- A selection line against PO line 1 with the given quantity. -/
def selLine (qty : ℚ) : CanLine :=
  { arrival_note_number := "AN-1"
    po_number := "PO-1"
    vendor_code := "V1"
    legal_entity_code := "LE1"
    vendor_type := "External"
    payment_term := some "NET 30 DAYS"
    product_purchase_order_id := 1
    buying_unit_cost_amount := 10
    buying_unit_cost_currency := some "USD"
    uninvoiced_quantity := qty
    true_remaining_qty := none
    vat_percent := 10
    po_line_is_over_delivered := "N"
    po_line_is_over_invoiced := "N"
    has_legacy_invoices := "N" }

/-- PO-line summary for PO line 1 with 10 units remaining and no legacy
exposure. -/
def summaryFixture : List InvoiceService.PoSummaryRow :=
  [{ product_purchase_order_id := 1
     po_number := "PO-1"
     pt_code := "PT-1"
     po_remaining_qty := some 10
     legacy_invoice_qty := 0 }]

/-- Three attachment files of which the second fails to upload. -/
def mixedBatch : List S3Utils.FileUpload :=
  [{ filename := "a.pdf", upload_ok := true, result := "purchase-invoice-file/1_a.pdf" },
   { filename := "b.pdf", upload_ok := false, result := "S3 error" },
   { filename := "c.pdf", upload_ok := true, result := "purchase-invoice-file/1_c.pdf" }]

/- ============================================================
   Helper lemmas.
   ============================================================ -/

/-- Both filters of a boolean partition together cover the list. -/
theorem length_filter_partition {α : Type} (p : α → Bool) (l : List α) :
    (l.filter p).length + (l.filter (fun x => !p x)).length = l.length := by
  induction l with
  | nil => simp
  | cons x t ih =>
      by_cases hx : p x = true
      · simp only [List.filter_cons, hx, Bool.not_true, if_true, if_false,
          Bool.false_eq_true, List.length_cons]
        omega
      · simp only [Bool.not_eq_true] at hx
        simp only [List.filter_cons, hx, Bool.not_false, if_true, if_false,
          Bool.false_eq_true, List.length_cons]
        omega

/-- Accumulator characterization of the batch-upload loop. -/
theorem batch_foldl_spec (files : List S3Utils.FileUpload) :
    ∀ r0 : S3Utils.BatchResult,
      (files.foldl S3Utils.batchStep r0).success = r0.success
      ∧ (files.foldl S3Utils.batchStep r0).total = r0.total
      ∧ (files.foldl S3Utils.batchStep r0).success_count
          = r0.success_count + (files.filter (fun f => f.upload_ok)).length
      ∧ (files.foldl S3Utils.batchStep r0).error_count
          = r0.error_count + (files.filter (fun f => !f.upload_ok)).length
      ∧ (files.foldl S3Utils.batchStep r0).uploaded
          = r0.uploaded ++ (files.filter (fun f => f.upload_ok)).map (fun f => f.result)
      ∧ (files.foldl S3Utils.batchStep r0).failed
          = r0.failed ++ (files.filter (fun f => !f.upload_ok)).map
              (fun f => (f.filename, f.result)) := by
  induction files with
  | nil => intro r0; simp
  | cons f t ih =>
      intro r0
      by_cases hf : f.upload_ok = true
      · obtain ⟨h1, h2, h3, h4, h5, h6⟩ :=
          ih { r0 with uploaded := r0.uploaded ++ [f.result],
                       success_count := r0.success_count + 1 }
        simp only [List.foldl_cons, S3Utils.batchStep, hf, if_true,
          List.filter_cons, Bool.not_true, Bool.false_eq_true, if_false]
        refine ⟨h1, h2, by rw [h3]; simp; omega, by rw [h4], ?_, by rw [h6]⟩
        rw [h5]; simp
      · simp only [Bool.not_eq_true] at hf
        obtain ⟨h1, h2, h3, h4, h5, h6⟩ :=
          ih { r0 with failed := r0.failed ++ [(f.filename, f.result)],
                       error_count := r0.error_count + 1 }
        simp only [List.foldl_cons, S3Utils.batchStep, hf, Bool.false_eq_true,
          if_false, List.filter_cons, Bool.not_false, if_true]
        refine ⟨h1, h2, by rw [h3], by rw [h4]; simp; omega, by rw [h5], ?_⟩
        rw [h6]; simp

/- ============================================================
   Claim theorems.  Concrete witnesses evaluate the embedded string
   scanners and calendar arithmetic inside the kernel, which needs a
   deeper recursion budget than the default.
   ============================================================ -/

set_option maxRecDepth 200000

/-- C10: for every list of input files the batch-upload result satisfies
`success_count + error_count = total = number of input files`, the
uploaded-keys list has length `success_count`, the failed list has length
`error_count`, and the overall `success` flag is true exactly when
`error_count` is zero (so an empty batch reports success with zero
counts). -/
theorem batch_upload_result_invariants (files : List S3Utils.FileUpload) :
    (S3Utils.batch_upload_invoice_files files).success_count
        + (S3Utils.batch_upload_invoice_files files).error_count
      = (S3Utils.batch_upload_invoice_files files).total
    ∧ (S3Utils.batch_upload_invoice_files files).total = files.length
    ∧ (S3Utils.batch_upload_invoice_files files).uploaded.length
        = (S3Utils.batch_upload_invoice_files files).success_count
    ∧ (S3Utils.batch_upload_invoice_files files).failed.length
        = (S3Utils.batch_upload_invoice_files files).error_count
    ∧ ((S3Utils.batch_upload_invoice_files files).success = true
        ↔ (S3Utils.batch_upload_invoice_files files).error_count = 0) := by
  unfold S3Utils.batch_upload_invoice_files
  by_cases hempty : files.isEmpty
  · have hnil : files = [] := List.isEmpty_iff.mp hempty
    subst hnil
    simp
  · simp only [hempty, if_false, Bool.false_eq_true]
    obtain ⟨h1, h2, h3, h4, h5, h6⟩ := batch_foldl_spec files
      { success := false, uploaded := [], failed := [],
        total := files.length, success_count := 0, error_count := 0 }
    refine ⟨?_, ?_, ?_, ?_, ?_⟩
    · simp only [h2, h3, h4]
      simpa using length_filter_partition (fun f => f.upload_ok) files
    · exact h2
    · simp [h5, h3]
    · simp [h6, h4]
    · simp [h4, Nat.beq_eq_true_eq]

/-- C3: whenever at least one attachment in the batch fails to upload, the
batch reports overall failure, and the whole invoice creation aborts
before any database write: no media record is created, the invoice
header/detail insert is never attempted, and nothing is uploaded or left
to clean up. -/
theorem upload_failure_blocks_all_writes (files : List S3Utils.FileUpload)
    (media_ok : Bool) (media_ids : List Nat) (invoice_ok : Bool)
    (h : ∃ f ∈ files, f.upload_ok = false) :
    (S3Utils.batch_upload_invoice_files files).success = false
    ∧ CreateInvoicePage.create_invoice_final files media_ok media_ids invoice_ok
        = { s3_keys_uploaded := [], media_records_created := 0,
            invoice_insert_attempted := false, invoice_created := false,
            cleaned_up_keys := [] } := by
  obtain ⟨f, hf, hfail⟩ := h
  have hne : files ≠ [] := List.ne_nil_of_mem hf
  have hmemf : f ∈ files.filter (fun x => !x.upload_ok) := by
    rw [List.mem_filter]
    exact ⟨hf, by rw [hfail]; rfl⟩
  have hpos : 0 < (files.filter (fun x => !x.upload_ok)).length :=
    List.length_pos.mpr (List.ne_nil_of_mem hmemf)
  have hemp : files.isEmpty = false := by
    cases files with
    | nil => exact absurd rfl hne
    | cons a t => rfl
  have hsucc : (S3Utils.batch_upload_invoice_files files).success = false := by
    unfold S3Utils.batch_upload_invoice_files
    simp only [hemp, Bool.false_eq_true, if_false]
    obtain ⟨h1, h2, h3, h4, h5, h6⟩ := batch_foldl_spec files
      { success := false, uploaded := [], failed := [],
        total := files.length, success_count := 0, error_count := 0 }
    simp only [h4, Nat.zero_add, beq_eq_false_iff_ne, ne_eq]
    omega
  refine ⟨hsucc, ?_⟩
  unfold CreateInvoicePage.create_invoice_final
  rw [if_pos ⟨hne, hsucc⟩]

/-- C5: the derived `true_remaining_qty` of an arrival line (whose
uninvoiced quantity is positive, as the `WHERE uninvoiced_quantity > 0`
filter guarantees) equals `max(0, min(uninvoiced, po_pending))`, is
nonnegative, and never exceeds the uninvoiced quantity. -/
theorem true_remaining_qty_bounds (u p : ℚ) (hu : 0 < u) :
    InvoiceData.true_remaining_qty u p = max 0 (min u p)
    ∧ 0 ≤ InvoiceData.true_remaining_qty u p
    ∧ InvoiceData.true_remaining_qty u p ≤ u := by
  refine ⟨rfl, le_max_left 0 (min u p), ?_⟩
  unfold InvoiceData.true_remaining_qty
  exact max_le (le_of_lt hu) (min_le_left u p)

/-- C5 witness: uninvoiced quantity 5, PO pending 3. -/
theorem true_remaining_qty_bounds_witness :
    (0 : ℚ) < 5
    ∧ (InvoiceData.true_remaining_qty 5 3 = max 0 (min 5 3)
       ∧ 0 ≤ InvoiceData.true_remaining_qty 5 3
       ∧ InvoiceData.true_remaining_qty 5 3 ≤ 5) :=
  ⟨by norm_num, true_remaining_qty_bounds 5 3 (by norm_num)⟩

/-- C4: when the PO currency differs from the invoice currency and no
po→invoice exchange rate can be resolved, the conversion-based amount
calculation returns `none` (never totals at an implicit rate of 1.0), and
`validate_exchange_rates` reports the rates as invalid, whatever the USD
reporting rate is. -/
theorem missing_rate_never_defaults (df : List CanLine)
    (po_currency invoice_currency : String) (usd_rate : Option ℚ)
    (hne : po_currency ≠ invoice_currency) :
    CurrencyUtils.get_invoice_amounts_in_currency df po_currency invoice_currency none = none
    ∧ (CurrencyUtils.validate_exchange_rates
        { usd_exchange_rate := usd_rate, po_to_invoice_rate := none }
        po_currency invoice_currency).1 = false := by
  constructor
  · unfold CurrencyUtils.get_invoice_amounts_in_currency
    rw [if_neg hne]
  · unfold CurrencyUtils.validate_exchange_rates CurrencyUtils.rateCheckPoStep
    have hpo : po_currency ≠ invoice_currency
        ∧ ({ usd_exchange_rate := usd_rate, po_to_invoice_rate := none } :
            CurrencyUtils.ExchangeRates).po_to_invoice_rate = none := ⟨hne, rfl⟩
    by_cases husd : invoice_currency ≠ "USD"
        ∧ ({ usd_exchange_rate := usd_rate, po_to_invoice_rate := none } :
            CurrencyUtils.ExchangeRates).usd_exchange_rate = none
    · rw [if_pos husd, if_pos hpo]
    · rw [if_neg husd, if_pos hpo]

/-- C4 witness: EUR purchase order invoiced in USD with no resolvable
EUR→USD rate. -/
theorem missing_rate_never_defaults_witness :
    "EUR" ≠ "USD"
    ∧ (CurrencyUtils.get_invoice_amounts_in_currency [] "EUR" "USD" none = none
       ∧ (CurrencyUtils.validate_exchange_rates
            { usd_exchange_rate := some 1, po_to_invoice_rate := none }
            "EUR" "USD").1 = false) :=
  ⟨by decide, missing_rate_never_defaults [] "EUR" "USD" (some 1) (by decide)⟩

/-- C3 witness: three files of which the second fails to upload — the
batch fails, no media record is created and the invoice insert never
runs. -/
theorem upload_failure_blocks_all_writes_witness :
    (∃ f ∈ mixedBatch, f.upload_ok = false)
    ∧ ((S3Utils.batch_upload_invoice_files mixedBatch).success = false
       ∧ CreateInvoicePage.create_invoice_final mixedBatch true [7] true
           = { s3_keys_uploaded := [], media_records_created := 0,
               invoice_insert_attempted := false, invoice_created := false,
               cleaned_up_keys := [] }) :=
  ⟨by decide, upload_failure_blocks_all_writes mixedBatch true [7] true (by decide)⟩

/-- The totals-with-VAT fold accumulates the exact line sums when every
row carries a currency tag. -/
theorem vatTotals_foldl_spec (df : List CanLine) :
    ∀ (a b : ℚ) (c : Option String),
      (∀ r ∈ df, r.buying_unit_cost_currency.isSome = true) →
      (df.foldl InvoiceService.vatTotalsStep (a, b, c)).1
          = a + (df.map
              (fun r => r.buying_unit_cost_amount * InvoiceService.effectiveQty r)).sum
        ∧ (df.foldl InvoiceService.vatTotalsStep (a, b, c)).2.1
          = b + (df.map
              (fun r => r.buying_unit_cost_amount * InvoiceService.effectiveQty r
                  * r.vat_percent / 100)).sum := by
  induction df with
  | nil => intro a b c _; simp
  | cons r t ih =>
      intro a b c h
      obtain ⟨tag, htag⟩ := Option.isSome_iff_exists.mp (h r (List.mem_cons_self r t))
      have ht : ∀ x ∈ t, x.buying_unit_cost_currency.isSome = true :=
        fun x hx => h x (List.mem_cons_of_mem _ hx)
      have hstep : InvoiceService.vatTotalsStep (a, b, c) r
          = (a + r.buying_unit_cost_amount * InvoiceService.effectiveQty r,
             b + r.buying_unit_cost_amount * InvoiceService.effectiveQty r
                 * r.vat_percent / 100,
             c <|> some tag) := by
        simp only [InvoiceService.vatTotalsStep, htag, InvoiceService.effectiveQty]
      obtain ⟨ih1, ih2⟩ := ih (a + r.buying_unit_cost_amount * InvoiceService.effectiveQty r)
        (b + r.buying_unit_cost_amount * InvoiceService.effectiveQty r * r.vat_percent / 100)
        (c <|> some tag) ht
      constructor
      · rw [List.foldl_cons, hstep, ih1, List.map_cons, List.sum_cons]
        ring
      · rw [List.foldl_cons, hstep, ih2, List.map_cons, List.sum_cons]
        ring

/-- The conversion fold accumulates the exact converted line sums. -/
theorem converted_foldl_spec (er : ℚ) (df : List CanLine) :
    ∀ (a b : ℚ),
      (df.foldl (CurrencyUtils.convertedStep er) (a, b)).1
          = a + (df.map
              (fun r => r.buying_unit_cost_amount * r.uninvoiced_quantity * er)).sum
        ∧ (df.foldl (CurrencyUtils.convertedStep er) (a, b)).2
          = b + (df.map
              (fun r => r.buying_unit_cost_amount * r.uninvoiced_quantity * er
                  * r.vat_percent / 100)).sum := by
  induction df with
  | nil => intro a b; simp
  | cons r t ih =>
      intro a b
      obtain ⟨ih1, ih2⟩ := ih (a + r.buying_unit_cost_amount * r.uninvoiced_quantity * er)
        (b + r.buying_unit_cost_amount * r.uninvoiced_quantity * er * r.vat_percent / 100)
      constructor
      · rw [List.foldl_cons, CurrencyUtils.convertedStep, ih1,
          List.map_cons, List.sum_cons]
        ring
      · rw [List.foldl_cons, CurrencyUtils.convertedStep, ih2,
          List.map_cons, List.sum_cons]
        ring

/-- C1 (amended): for every non-empty set of validated lines (each with a
currency tag in its cost string), `calculate_invoice_totals_with_vat`
computes `subtotal = Σ(unit_cost × qty)` with the quantity preferring
`true_remaining_qty` over the raw uninvoiced quantity,
`vat = Σ(line_subtotal × vat_percent / 100)` and
`total = subtotal + vat`, rounding to 2 decimals once at the aggregates;
the conversion-based calculation `get_invoice_amounts_in_currency`
computes the same aggregate formulas with the fx rate applied per line but
always uses the raw `uninvoiced_quantity`, never `true_remaining_qty`. -/
theorem invoice_totals_aggregate_formulas (df : List CanLine)
    (hne : df ≠ [])
    (htags : ∀ r ∈ df, r.buying_unit_cost_currency.isSome = true) :
    ((InvoiceService.calculate_invoice_totals_with_vat df).subtotal
        = round2 ((df.map
            (fun r => r.buying_unit_cost_amount * InvoiceService.effectiveQty r)).sum)
      ∧ (InvoiceService.calculate_invoice_totals_with_vat df).total_vat
        = round2 ((df.map
            (fun r => r.buying_unit_cost_amount * InvoiceService.effectiveQty r
                * r.vat_percent / 100)).sum)
      ∧ (InvoiceService.calculate_invoice_totals_with_vat df).total_with_vat
        = round2 ((df.map
            (fun r => r.buying_unit_cost_amount * InvoiceService.effectiveQty r)).sum
          + (df.map
            (fun r => r.buying_unit_cost_amount * InvoiceService.effectiveQty r
                * r.vat_percent / 100)).sum))
    ∧ ∀ (po_currency invoice_currency : String) (looked_up_rate : Option ℚ)
        (amounts : CurrencyUtils.ConvertedAmounts),
        CurrencyUtils.get_invoice_amounts_in_currency df po_currency
            invoice_currency looked_up_rate = some amounts →
        amounts.subtotal
            = round2 ((df.map (fun r => r.buying_unit_cost_amount
                * r.uninvoiced_quantity * amounts.exchange_rate)).sum)
          ∧ amounts.total_vat
            = round2 ((df.map (fun r => r.buying_unit_cost_amount
                * r.uninvoiced_quantity * amounts.exchange_rate
                * r.vat_percent / 100)).sum)
          ∧ amounts.total_with_vat
            = round2 ((df.map (fun r => r.buying_unit_cost_amount
                * r.uninvoiced_quantity * amounts.exchange_rate)).sum
              + (df.map (fun r => r.buying_unit_cost_amount
                * r.uninvoiced_quantity * amounts.exchange_rate
                * r.vat_percent / 100)).sum) := by
  constructor
  · obtain ⟨h1, h2⟩ := vatTotals_foldl_spec df 0 0 none htags
    simp only [InvoiceService.calculate_invoice_totals_with_vat, h1, h2, zero_add]
    refine ⟨?_, ?_, ?_⟩ <;> first | rfl | trivial
  · intro po_currency invoice_currency looked_up_rate amounts hsome
    simp only [CurrencyUtils.get_invoice_amounts_in_currency] at hsome
    rcases hrate : (if po_currency = invoice_currency then some (1 : ℚ)
        else looked_up_rate) with _ | er
    · rw [hrate] at hsome
      exact absurd hsome (by simp)
    · rw [hrate] at hsome
      simp only [Option.some.injEq] at hsome
      obtain ⟨h1, h2⟩ := converted_foldl_spec er df 0 0
      subst hsome
      dsimp only
      simp only [h1, h2, zero_add]
      refine ⟨?_, ?_, ?_⟩ <;> first | rfl | trivial

/-- C1 witness: two tagged lines with different VAT rates, one of them
PO-capped; both calculations at rate 1. -/
theorem invoice_totals_aggregate_formulas_witness :
    ([adjustedLine, selLine 3] ≠ []
      ∧ ∀ r ∈ [adjustedLine, selLine 3], r.buying_unit_cost_currency.isSome = true)
    ∧ (InvoiceService.calculate_invoice_totals_with_vat [adjustedLine, selLine 3]).subtotal
        = round2 (([adjustedLine, selLine 3].map
            (fun r => r.buying_unit_cost_amount * InvoiceService.effectiveQty r)).sum)
    ∧ (InvoiceService.calculate_invoice_totals_with_vat
          [adjustedLine, selLine 3]).subtotal = 40 := by
  have h := invoice_totals_aggregate_formulas [adjustedLine, selLine 3]
    (by simp) (by intro r hr; fin_cases hr <;> rfl)
  refine ⟨⟨by simp, by intro r hr; fin_cases hr <;> rfl⟩, h.1.1, ?_⟩
  rw [h.1.1]
  norm_num [adjustedLine, selLine, InvoiceService.effectiveQty, round2, Rat.floor]

/-- C1 counterexample: on a line whose `true_remaining_qty` (1) differs
from its raw uninvoiced quantity (2) at unit cost 10, the conversion-based
calculation returns subtotal 20 — computed from the raw uninvoiced
quantity — while the claimed formula (quantity preferring
`true_remaining_qty`) yields 10. -/
theorem converted_amounts_ignore_true_remaining :
    CurrencyUtils.get_invoice_amounts_in_currency [adjustedLine] "USD" "USD" none
        = some { exchange_rate := 1, subtotal := 20, total_vat := 0,
                 total_with_vat := 20, currency := "USD" }
    ∧ round2 (adjustedLine.buying_unit_cost_amount
        * (adjustedLine.true_remaining_qty.getD adjustedLine.uninvoiced_quantity) * 1)
      = 10
    ∧ (20 : ℚ) ≠ 10 := by
  refine ⟨?_, ?_, by norm_num⟩
  · simp only [CurrencyUtils.get_invoice_amounts_in_currency, if_pos rfl,
      List.foldl_cons, List.foldl_nil, CurrencyUtils.convertedStep,
      CurrencyUtils.ConvertedAmounts.mk.injEq, adjustedLine]
    norm_num [round2, Rat.floor]
  · norm_num [adjustedLine, round2, Rat.floor]

/-- The PO-level loop returns the ceiling-breach error exactly when some
id in the list breaches the ceiling, whatever warnings were accumulated. -/
theorem poLevelLoop_ceiling (df : List CanLine)
    (summary : List InvoiceService.PoSummaryRow) :
    ∀ (ids : List Nat) (ws : List InvoiceService.ValWarning),
      InvoiceService.isCeilingError (InvoiceService.poLevelLoop df summary ids ws).1
        = ids.any (InvoiceService.ceilingBreached df summary) := by
  intro ids
  induction ids with
  | nil => intro ws; rfl
  | cons po_id rest ih =>
      intro ws
      simp only [InvoiceService.poLevelLoop, List.any_cons]
      cases hlook : InvoiceService.lookupPoSummary summary po_id with
      | none =>
          simp [InvoiceService.ceilingBreached, hlook, ih]
      | some po_row =>
          cases hrem : po_row.po_remaining_qty with
          | none =>
              simp [InvoiceService.ceilingBreached, hlook, hrem, ih]
          | some remaining_qty =>
              by_cases hcmp :
                  InvoiceService.totalSelectedFor df po_id > remaining_qty * (11 / 10)
              · simp [InvoiceService.ceilingBreached, hlook, hrem, hcmp,
                  InvoiceService.isCeilingError]
              · simp [InvoiceService.ceilingBreached, hlook, hrem, hcmp, ih]

/-- C2: for a selection that passes the basic single-vendor,
single-entity and single-type checks, PO-level validation blocks with the
ceiling-breach error if and only if some distinct PO line of the selection
has a summary row whose remaining quantity is strictly exceeded by the
summed selected quantity times more than the 10% tolerance — that is,
`selected > remaining * 1.1`; a selection at exactly 110% of remaining
passes. -/
theorem po_ceiling_blocks_iff (df : List CanLine)
    (summary : List InvoiceService.PoSummaryRow)
    (hne : df ≠ [])
    (hv : ((df.map (fun r => r.vendor_code)).dedup).length ≤ 1)
    (he : ((df.map (fun r => r.legal_entity_code)).dedup).length ≤ 1)
    (ht : ((df.map (fun r => r.vendor_type)).dedup).length ≤ 1) :
    ((InvoiceService.validate_invoice_with_po_level df summary).can_invoice = false
      ∧ InvoiceService.isCeilingError
          (InvoiceService.validate_invoice_with_po_level df summary).error = true)
    ↔ (InvoiceService.uniqueInOrder
          (df.map (fun r => r.product_purchase_order_id))).any
        (InvoiceService.ceilingBreached df summary) = true := by
  have hemp : df.isEmpty = false := by
    cases df with
    | nil => exact absurd rfl hne
    | cons a t => rfl
  have hl := poLevelLoop_ceiling df summary
    (InvoiceService.uniqueInOrder (df.map (fun r => r.product_purchase_order_id))) []
  unfold InvoiceService.validate_invoice_with_po_level
  rw [if_neg (by simp [hemp]), if_neg (by omega), if_neg (by omega), if_neg (by omega)]
  dsimp only
  rcases hloop : InvoiceService.poLevelLoop df summary
      (InvoiceService.uniqueInOrder (df.map (fun r => r.product_purchase_order_id))) []
    with ⟨err, ws⟩
  rw [hloop] at hl
  rw [hloop]
  cases err with
  | some e =>
      simp only at hl
      simp [← hl]
  | none =>
      simp only at hl
      simp [← hl]
      rfl

/-- C2 witness: against a PO line with 10 units remaining, a selection of
11 units (exactly 110%) passes, while a selection of 11.001 units
(110.01%) is blocked with the ceiling-breach error. -/
theorem po_ceiling_blocks_iff_witness :
    (InvoiceService.validate_invoice_with_po_level [selLine 11]
        summaryFixture).can_invoice = true
    ∧ (InvoiceService.validate_invoice_with_po_level [selLine (11001 / 1000)]
        summaryFixture).can_invoice = false
    ∧ InvoiceService.isCeilingError
        (InvoiceService.validate_invoice_with_po_level [selLine (11001 / 1000)]
          summaryFixture).error = true := by
  have hblocked := (po_ceiling_blocks_iff [selLine (11001 / 1000)] summaryFixture
      (by simp) (by simp) (by simp) (by simp)).mpr (by
    norm_num [InvoiceService.uniqueInOrder, selLine, InvoiceService.ceilingBreached,
      InvoiceService.lookupPoSummary, summaryFixture, InvoiceService.totalSelectedFor])
  refine ⟨?_, hblocked.1, hblocked.2⟩
  norm_num [InvoiceService.validate_invoice_with_po_level, selLine, summaryFixture,
    InvoiceService.poLevelLoop, InvoiceService.lookupPoSummary,
    InvoiceService.totalSelectedFor, InvoiceService.uniqueInOrder]

/-- C6: for every invoice date and every term categorized as AMS whose day
count N is extractable, the computed due date is the first calendar day of
the month following the invoice month — January of the next year when the
invoice month is December — plus N days, with no manual review required. -/
theorem ams_due_date_formula (term_name : String) (invoice_date : PyDate) (n : Nat)
    (hcat : PaymentTerms.categorize_payment_term term_name
        = PaymentTerms.PaymentTermCategory.ams_days)
    (hex : PaymentTerms.extract_days_from_ams_term term_name = some n) :
    PaymentTerms.calculate_due_date term_name invoice_date "" =
      (some (addDays
        (if invoice_date.month = 12 then ⟨invoice_date.year + 1, 1, 1⟩
         else ⟨invoice_date.year, invoice_date.month + 1, 1⟩) n), false) := by
  unfold PaymentTerms.calculate_due_date
  rw [hcat]
  simp only [hex, PaymentTerms.calculate_ams_due_date]

/-- C6 witness: `AMS 60 DAYS` on invoice date 2025-01-17 is categorized as
AMS with 60 extractable days, and the due date is 2025-04-02. -/
theorem ams_due_date_formula_witness :
    PaymentTerms.categorize_payment_term "AMS 60 DAYS"
        = PaymentTerms.PaymentTermCategory.ams_days
    ∧ PaymentTerms.extract_days_from_ams_term "AMS 60 DAYS" = some 60
    ∧ PaymentTerms.calculate_due_date "AMS 60 DAYS" ⟨2025, 1, 17⟩ ""
        = (some ⟨2025, 4, 2⟩, false) :=
  ⟨by decide, by decide,
    (ams_due_date_formula "AMS 60 DAYS" ⟨2025, 1, 17⟩ 60 (by decide)
      (by decide)).trans (by decide)⟩

/-- C7: categorization follows the fixed priority order — a percentage or
colon marker yields SPLIT_PAYMENT regardless of any other keyword; then
NET plus DAYS yields NET_DAYS; then AMS yields AMS_DAYS; then an advance
keyword yields ADVANCE; then a special-date keyword yields SPECIAL_DATE;
then an event keyword yields AFTER_EVENT; otherwise OTHER. -/
theorem categorization_priority (term_name : String) :
    (PaymentTerms.categorize_payment_term term_name
        = PaymentTerms.PaymentTermCategory.split_payment
      ↔ PaymentTerms.hasSplitMarker term_name = true)
    ∧ (PaymentTerms.categorize_payment_term term_name
        = PaymentTerms.PaymentTermCategory.net_days
      ↔ PaymentTerms.hasSplitMarker term_name = false
        ∧ PaymentTerms.mentionsNetDays term_name = true)
    ∧ (PaymentTerms.categorize_payment_term term_name
        = PaymentTerms.PaymentTermCategory.ams_days
      ↔ PaymentTerms.hasSplitMarker term_name = false
        ∧ PaymentTerms.mentionsNetDays term_name = false
        ∧ PaymentTerms.mentionsAms term_name = true)
    ∧ (PaymentTerms.categorize_payment_term term_name
        = PaymentTerms.PaymentTermCategory.advance
      ↔ PaymentTerms.hasSplitMarker term_name = false
        ∧ PaymentTerms.mentionsNetDays term_name = false
        ∧ PaymentTerms.mentionsAms term_name = false
        ∧ PaymentTerms.mentionsAdvanceKeyword term_name = true)
    ∧ (PaymentTerms.categorize_payment_term term_name
        = PaymentTerms.PaymentTermCategory.special_date
      ↔ PaymentTerms.hasSplitMarker term_name = false
        ∧ PaymentTerms.mentionsNetDays term_name = false
        ∧ PaymentTerms.mentionsAms term_name = false
        ∧ PaymentTerms.mentionsAdvanceKeyword term_name = false
        ∧ PaymentTerms.mentionsSpecialDateKeyword term_name = true)
    ∧ (PaymentTerms.categorize_payment_term term_name
        = PaymentTerms.PaymentTermCategory.after_event
      ↔ PaymentTerms.hasSplitMarker term_name = false
        ∧ PaymentTerms.mentionsNetDays term_name = false
        ∧ PaymentTerms.mentionsAms term_name = false
        ∧ PaymentTerms.mentionsAdvanceKeyword term_name = false
        ∧ PaymentTerms.mentionsSpecialDateKeyword term_name = false
        ∧ PaymentTerms.mentionsEventKeyword term_name = true)
    ∧ (PaymentTerms.categorize_payment_term term_name
        = PaymentTerms.PaymentTermCategory.other
      ↔ PaymentTerms.hasSplitMarker term_name = false
        ∧ PaymentTerms.mentionsNetDays term_name = false
        ∧ PaymentTerms.mentionsAms term_name = false
        ∧ PaymentTerms.mentionsAdvanceKeyword term_name = false
        ∧ PaymentTerms.mentionsSpecialDateKeyword term_name = false
        ∧ PaymentTerms.mentionsEventKeyword term_name = false) := by
  unfold PaymentTerms.categorize_payment_term
  cases h1 : PaymentTerms.hasSplitMarker term_name <;>
    cases h2 : PaymentTerms.mentionsNetDays term_name <;>
      cases h3 : PaymentTerms.mentionsAms term_name <;>
        cases h4 : PaymentTerms.mentionsAdvanceKeyword term_name <;>
          cases h5 : PaymentTerms.mentionsSpecialDateKeyword term_name <;>
            cases h6 : PaymentTerms.mentionsEventKeyword term_name <;>
              simp_all

/-- C8 (amended): the parser-module legacy day-count accessor follows the
same category dispatch as the full parser — NET terms yield the extracted
N (default 30), AMS terms yield N + 15 (default 30), advance terms yield
0, split-payment terms yield the final NET days (default 30), everything
else yields 30 — but the data-module accessor implements a different
keyword/regex cascade and the two accessors do not agree on every input. -/
theorem legacy_day_accessor_dispatch (term_name : String) :
    (PaymentTerms.categorize_payment_term term_name
        = PaymentTerms.PaymentTermCategory.net_days →
      PaymentTerms.calculate_days_from_term_name term_name
        = (PaymentTerms.extract_days_from_net_term term_name).getD 30)
    ∧ (PaymentTerms.categorize_payment_term term_name
        = PaymentTerms.PaymentTermCategory.ams_days →
      PaymentTerms.calculate_days_from_term_name term_name
        = (PaymentTerms.extract_days_from_ams_term term_name).elim 30
            (fun n => n + 15))
    ∧ (PaymentTerms.categorize_payment_term term_name
        = PaymentTerms.PaymentTermCategory.advance →
      PaymentTerms.calculate_days_from_term_name term_name = 0)
    ∧ (PaymentTerms.categorize_payment_term term_name
        = PaymentTerms.PaymentTermCategory.split_payment →
      PaymentTerms.calculate_days_from_term_name term_name
        = (PaymentTerms.extract_final_payment_days term_name "").getD 30)
    ∧ ((PaymentTerms.categorize_payment_term term_name
          = PaymentTerms.PaymentTermCategory.special_date
        ∨ PaymentTerms.categorize_payment_term term_name
          = PaymentTerms.PaymentTermCategory.after_event
        ∨ PaymentTerms.categorize_payment_term term_name
          = PaymentTerms.PaymentTermCategory.other) →
      PaymentTerms.calculate_days_from_term_name term_name = 30)
    ∧ ¬ ∀ s : String, PaymentTerms.calculate_days_from_term_name s
          = InvoiceData.calculate_days_from_term_name s := by
  refine ⟨?_, ?_, ?_, ?_, ?_, ?_⟩
  · intro h
    unfold PaymentTerms.calculate_days_from_term_name
    rw [h]
  · intro h
    unfold PaymentTerms.calculate_days_from_term_name
    rw [h]
    cases hx : PaymentTerms.extract_days_from_ams_term term_name <;> simp [hx]
  · intro h
    unfold PaymentTerms.calculate_days_from_term_name
    rw [h]
  · intro h
    unfold PaymentTerms.calculate_days_from_term_name
    rw [h]
  · intro h
    rcases h with h | h | h <;>
      (unfold PaymentTerms.calculate_days_from_term_name; rw [h])
  · intro hall
    exact absurd (hall "50% IN ADVANCE, 50% NET 30 DAYS") (by decide)

/-- C8 witness: `NET 30 DAYS` is categorized NET_DAYS and the
parser-module accessor yields the extracted 30. -/
theorem legacy_day_accessor_dispatch_witness :
    PaymentTerms.categorize_payment_term "NET 30 DAYS"
        = PaymentTerms.PaymentTermCategory.net_days
    ∧ PaymentTerms.calculate_days_from_term_name "NET 30 DAYS" = 30 := by
  refine ⟨by decide, ?_⟩
  have h := (legacy_day_accessor_dispatch "NET 30 DAYS").1 (by decide)
  rw [h]
  decide

/-- C8 counterexample: on `50% IN ADVANCE, 50% NET 30 DAYS` the
data-module accessor returns 0 (its advance-keyword check fires first)
while the parser-module accessor returns the split-payment dispatch value
30, so the two legacy accessors do not agree with one dispatch on every
input. -/
theorem legacy_day_accessors_disagree :
    InvoiceData.calculate_days_from_term_name "50% IN ADVANCE, 50% NET 30 DAYS" = 0
    ∧ PaymentTerms.calculate_days_from_term_name "50% IN ADVANCE, 50% NET 30 DAYS" = 30
    ∧ (0 : Nat) ≠ 30 :=
  ⟨by decide, by decide, by decide⟩

/-- Taking while a predicate holds skips over a prefix that satisfies it
everywhere. -/
theorem takeWhile_append_all {α : Type} (p : α → Bool) :
    ∀ (a b : List α), (∀ c ∈ a, p c = true) →
      (a ++ b).takeWhile p = a ++ b.takeWhile p := by
  intro a
  induction a with
  | nil => intro b _; simp
  | cons x t ih =>
      intro b h
      have hx : p x = true := h x (List.mem_cons_self x t)
      simp only [List.cons_append, List.takeWhile_cons, hx, if_true]
      rw [ih b (fun c hc => h c (List.mem_cons_of_mem x hc))]

/-- Dropping while a predicate holds skips over a prefix that satisfies it
everywhere. -/
theorem dropWhile_append_all {α : Type} (p : α → Bool) :
    ∀ (a b : List α), (∀ c ∈ a, p c = true) →
      (a ++ b).dropWhile p = b.dropWhile p := by
  intro a
  induction a with
  | nil => intro b _; simp
  | cons x t ih =>
      intro b h
      have hx : p x = true := h x (List.mem_cons_self x t)
      simp only [List.cons_append, List.dropWhile_cons, hx, if_true]
      exact ih b (fun c hc => h c (List.mem_cons_of_mem x hc))

/-- Splitting at the last dot of `x ++ '.' :: y` recovers `(x, y)` when
`y` holds no dot. -/
theorem splitAtLastDot_append (x y : List Char) (hy : ∀ c ∈ y, c ≠ '.') :
    InvoiceAttachments.splitAtLastDot (x ++ '.' :: y) = some (x, y) := by
  have hyrev : ∀ c ∈ y.reverse, (decide (c ≠ '.')) = true := by
    intro c hc
    exact decide_eq_true (hy c (List.mem_reverse.mp hc))
  have hrev : (x ++ '.' :: y).reverse = y.reverse ++ '.' :: x.reverse := by
    rw [List.reverse_append, List.reverse_cons, List.append_assoc]
    simp
  unfold InvoiceAttachments.splitAtLastDot
  dsimp only
  rw [hrev, dropWhile_append_all _ _ _ hyrev, takeWhile_append_all _ _ _ hyrev]
  simp [List.dropWhile_cons, List.takeWhile_cons]

/-- A successful split at the last dot decomposes the list, and the
extension part holds no dot. -/
theorem splitAtLastDot_eq_some (l nm ext : List Char)
    (h : InvoiceAttachments.splitAtLastDot l = some (nm, ext)) :
    l = nm ++ '.' :: ext ∧ ∀ c ∈ ext, c ≠ '.' := by
  unfold InvoiceAttachments.splitAtLastDot at h
  dsimp only at h
  split at h
  case _ nameRev heq =>
    simp only [Option.some.injEq, Prod.mk.injEq] at h
    obtain ⟨hnm, hext⟩ := h
    have hsplit : l.reverse.takeWhile (fun c => decide (c ≠ '.'))
        ++ '.' :: nameRev = l.reverse := by
      rw [← heq]
      exact List.takeWhile_append_dropWhile _ _
    constructor
    · have hrev := congrArg List.reverse hsplit
      rw [List.reverse_reverse] at hrev
      rw [← hrev, List.reverse_append, List.reverse_cons, List.append_assoc]
      simp [← hnm, ← hext]
    · intro c hc
      rw [← hext] at hc
      have hmem := List.mem_reverse.mp hc
      have := List.mem_takeWhile_imp hmem
      simpa using this
  case _ =>
    exact absurd h (by simp)

/-- Lowercasing a character kept by the sanitizer's class
`[a-zA-Z0-9._-]` lands in the specification's class `[a-z0-9._-]`. -/
theorem lowChar_spec (c : Char) (h : InvoiceAttachments.isKeptChar c = true) :
    InvoiceAttachments.isSpecSanChar (lowChar c) = true := by
  simp only [InvoiceAttachments.isKeptChar, Bool.or_eq_true, Bool.and_eq_true,
    decide_eq_true_eq, beq_iff_eq] at h
  unfold lowChar
  by_cases hup : 65 ≤ c.toNat ∧ c.toNat ≤ 90
  · rw [if_pos hup]
    have hv : (Char.ofNat (c.toNat + 32)).toNat = c.toNat + 32 := by
      unfold Char.ofNat
      rw [dif_pos (Or.inl (by omega))]
      rfl
    simp only [InvoiceAttachments.isSpecSanChar, Bool.or_eq_true, Bool.and_eq_true,
      decide_eq_true_eq, beq_iff_eq, hv]
    exact Or.inl (Or.inl (Or.inl (Or.inl ⟨by omega, by omega⟩)))
  · rw [if_neg hup]
    simp only [InvoiceAttachments.isSpecSanChar, Bool.or_eq_true, Bool.and_eq_true,
      decide_eq_true_eq, beq_iff_eq]
    rcases h with ((((h | h) | h) | h) | h) | h
    · exact Or.inl (Or.inl (Or.inl (Or.inl h)))
    · exact absurd h hup
    · exact Or.inl (Or.inl (Or.inl (Or.inr h)))
    · exact Or.inl (Or.inl (Or.inr h))
    · exact Or.inl (Or.inr h)
    · exact Or.inr h

/-- C9 (amended): sanitization lower-cases, replaces spaces with
underscores and strips the remaining characters outside `[a-z0-9._-]`, and
when the sanitized name splits at a final dot its base name is truncated
to at most 100 characters (a dotless name is returned whole); the
object-store key is
`purchase-invoice-file/{millisecond-timestamp}_{sanitized-filename}`. -/
theorem sanitize_filename_spec (filename : String) (timestamp : Nat) :
    (∀ c ∈ (InvoiceAttachments.sanitize_filename filename).data,
        InvoiceAttachments.isSpecSanChar c = true)
    ∧ (∀ nm ext, InvoiceAttachments.splitAtLastDot
          (InvoiceAttachments.sanitize_filename filename).data = some (nm, ext) →
        nm.length ≤ 100)
    ∧ InvoiceAttachments.generate_s3_key
          (InvoiceAttachments.sanitize_filename filename) timestamp
        = "purchase-invoice-file/" ++ toString timestamp ++ "_"
            ++ InvoiceAttachments.sanitize_filename filename := by
  have hall : ∀ c ∈ ((filename.data.map
        (fun c => if c = ' ' then '_' else c)).filter
          InvoiceAttachments.isKeptChar).map lowChar,
      InvoiceAttachments.isSpecSanChar c = true := by
    intro c hc
    obtain ⟨b, hb, rfl⟩ := List.mem_map.mp hc
    exact lowChar_spec b (List.of_mem_filter hb)
  unfold InvoiceAttachments.sanitize_filename
  dsimp only
  split
  case _ hsplit =>
    refine ⟨hall, ?_, rfl⟩
    intro nm ext hsome
    rw [hsplit] at hsome
    cases hsome
  case _ nm ext hsplit =>
    obtain ⟨hdecomp, hnodot⟩ := splitAtLastDot_eq_some _ _ _ hsplit
    have hmem : ∀ c, c ∈ (if nm.length > 100 then nm.take 100 else nm)
        ++ '.' :: ext → InvoiceAttachments.isSpecSanChar c = true := by
      intro c hc
      rcases List.mem_append.mp hc with hcn | hce
      · have hcnm : c ∈ nm := by
          by_cases hlen : nm.length > 100
          · rw [if_pos hlen] at hcn
            exact List.take_subset 100 nm hcn
          · rw [if_neg hlen] at hcn
            exact hcn
        exact hall c (by rw [hdecomp]; exact List.mem_append_left _ hcnm)
      · rcases List.mem_cons.mp hce with hdot | hcext
        · subst hdot
          decide
        · exact hall c (by
            rw [hdecomp]
            exact List.mem_append_right _ (List.mem_cons_of_mem _ hcext))
    refine ⟨hmem, ?_, rfl⟩
    intro nm2 ext2 hsome
    rw [splitAtLastDot_append _ _ hnodot] at hsome
    have hnm2 : nm2 = if nm.length > 100 then nm.take 100 else nm := by
      injection hsome with hpair
      exact (congrArg Prod.fst hpair).symm
    subst hnm2
    by_cases hlen : nm.length > 100
    · rw [if_pos hlen]
      simp [List.length_take]
    · rw [if_neg hlen]
      omega

/-- C9 witness: a 150-character upper-case base name with extension `.PDF`
is lower-cased and truncated to a 100-character base name, and the key
layout holds. -/
theorem sanitize_filename_spec_witness :
    InvoiceAttachments.sanitize_filename
        (String.mk (List.replicate 150 'A' ++ ".PDF".data))
      = String.mk (List.replicate 100 'a' ++ ".pdf".data)
    ∧ (List.replicate 100 'a' : List Char).length ≤ 100
    ∧ InvoiceAttachments.generate_s3_key
        (InvoiceAttachments.sanitize_filename
          (String.mk (List.replicate 150 'A' ++ ".PDF".data))) 1700000000000
      = "purchase-invoice-file/" ++ toString 1700000000000 ++ "_"
          ++ InvoiceAttachments.sanitize_filename
              (String.mk (List.replicate 150 'A' ++ ".PDF".data)) := by
  have h := sanitize_filename_spec
    (String.mk (List.replicate 150 'A' ++ ".PDF".data)) 1700000000000
  exact ⟨by decide, h.2.1 (List.replicate 100 'a') "pdf".data (by decide), h.2.2⟩

/-- C9 counterexample: a 101-character dotless filename is returned whole —
its base name is not truncated to 100 characters, because the
truncation step only runs when `rsplit('.', 1)` yields two parts. -/
theorem dotless_name_never_truncated :
    InvoiceAttachments.sanitize_filename (String.mk (List.replicate 101 'a'))
        = String.mk (List.replicate 101 'a')
    ∧ 100 < (InvoiceAttachments.sanitize_filename
        (String.mk (List.replicate 101 'a'))).length :=
  ⟨by decide, by decide⟩
